import Mathlib

/-!
Shallow embedding of the limix-inference core covered by the claims:
the exponential-family likelihood hierarchy (src/limix_inference/lik/expfam.py),
the optimization wrappers LMM (src/limix_inference/lmm/lmm.py) and FastLMM
(src/limix_inference/lmm/fastlmm/fastlmm.py), and the Gaussian-process sampler
(src/limix_inference/random/gp.py).  Machine floats are modelled by real
numbers; Python exceptions by an explicit error type threaded through
`Except`; Python in-place mutation by explicit state passing.
-/

noncomputable section

namespace LimixInference

/-- Python exceptions that the embedded code can raise. -/
inductive LimixError where
  | valueError
  | notImplementedError
  deriving DecidableEq, Repr

/-- numpy.clip on scalars: clip(x, lo, hi) = min(max(x, lo), hi). -/
def clip (x lo hi : ℝ) : ℝ := min (max x lo) hi

/-- numpy ndarray.var(): mean of squared deviations from the mean. -/
def npmean (xs : List ℝ) : ℝ := xs.sum / xs.length

/-- numpy ndarray.var(): mean of squared deviations from the mean. -/
def npvar (xs : List ℝ) : ℝ :=
  ((xs.map (fun x => (x - npmean xs) ^ 2)).sum) / xs.length

/-- scipy.special.gammaln: log of the Gamma function. -/
def gammaln (x : ℝ) : ℝ := Real.log (Real.Gamma x)

/-- numpy_sugar.special.logbinom(n, k) = gammaln(n+1) - gammaln(k+1) - gammaln(n-k+1),
the log of the (generalized) binomial coefficient. -/
def logbinom (n k : ℝ) : ℝ := gammaln (n + 1) - gammaln (k + 1) - gammaln (n - k + 1)

/-- numpy.log1p. -/
def log1p (x : ℝ) : ℝ := Real.log (1 + x)

/-- An external link-function collaborator: exposes inv (latent to mean)
and a latent_variance value. -/
structure Link where
  inv : ℝ → ℝ
  latent_variance : ℝ

/-! ## Exponential-family likelihoods (src/limix_inference/lik/expfam.py) -/

/-- The canonical quantities a concrete likelihood supplies to the shared
base-class formulas `ExpFamLik.logpdf` / `ExpFamLik.pdf`. -/
structure ExpFamLik where
  y : ℝ
  theta : ℝ → ℝ
  a : ℝ
  b : ℝ → ℝ
  c : ℝ

/-- ExpFamLik.logpdf: the single shared log-density formula
(y * theta(x) - b(theta(x))) / a() + c(). -/
def ExpFamLik.logpdf (L : ExpFamLik) (x : ℝ) : ℝ :=
  (L.y * L.theta x - L.b (L.theta x)) / L.a + L.c

/-- ExpFamLik.pdf: exp of logpdf. -/
def ExpFamLik.pdf (L : ExpFamLik) (x : ℝ) : ℝ := Real.exp (L.logpdf x)

/-- DeltaLik instance state: a link (unused by its methods) and the stored outcome. -/
structure DeltaLik where
  link : Link
  outcome : ℝ

def DeltaLik.y (l : DeltaLik) : ℝ := l.outcome

def DeltaLik.mean (_l : DeltaLik) (x : ℝ) : ℝ := x

def DeltaLik.theta (_l : DeltaLik) (_x : ℝ) : ℝ := 0

def DeltaLik.phi (_l : DeltaLik) : ℝ := 1

def DeltaLik.a (_l : DeltaLik) : ℝ := 1

def DeltaLik.b (_l : DeltaLik) (theta : ℝ) : ℝ := theta

def DeltaLik.c (_l : DeltaLik) : ℝ := 0

/-- DeltaLik.sample(x, random_state): returns mean(x), never consulting the
random source. -/
def DeltaLik.sample (l : DeltaLik) (x : ℝ) (_random_state : Option ℕ) : ℝ :=
  l.mean x

/-- DeltaLik.latent_variance: raises NotImplementedError when exercised. -/
def DeltaLik.latent_variance (_l : DeltaLik) : Except LimixError ℝ :=
  .error .notImplementedError

/-- The canonical quantities DeltaLik inherits into the base-class formulas. -/
def DeltaLik.toExpFam (l : DeltaLik) : ExpFamLik :=
  { y := l.y, theta := l.theta, a := l.a, b := l.b, c := l.c }

/-- DeltaLik.logpdf: inherited from the base class. -/
def DeltaLik.logpdf (l : DeltaLik) (x : ℝ) : ℝ := l.toExpFam.logpdf x

/-- DeltaLik.pdf: inherited from the base class. -/
def DeltaLik.pdf (l : DeltaLik) (x : ℝ) : ℝ := l.toExpFam.pdf x

/-- BernoulliLik instance state: the link and the stored outcome. -/
structure BernoulliLik where
  link : Link
  outcome : ℝ

def BernoulliLik.y (l : BernoulliLik) : ℝ := l.outcome

def BernoulliLik.mean (l : BernoulliLik) (x : ℝ) : ℝ := l.link.inv x

/-- BernoulliLik.latent_variance: delegates to the link. -/
def BernoulliLik.latent_variance (l : BernoulliLik) : Except LimixError ℝ :=
  .ok l.link.latent_variance

def BernoulliLik.theta (l : BernoulliLik) (x : ℝ) : ℝ :=
  Real.log (l.mean x / (1 - l.mean x))

def BernoulliLik.phi (_l : BernoulliLik) : ℝ := 1

def BernoulliLik.a (_l : BernoulliLik) : ℝ := 1

def BernoulliLik.b (_l : BernoulliLik) (theta : ℝ) : ℝ :=
  theta + log1p (Real.exp (-theta))

def BernoulliLik.c (_l : BernoulliLik) : ℝ := 0

/-- The canonical quantities BernoulliLik inherits into the base-class formulas. -/
def BernoulliLik.toExpFam (l : BernoulliLik) : ExpFamLik :=
  { y := l.y, theta := l.theta, a := l.a, b := l.b, c := l.c }

/-- BernoulliLik.logpdf: inherited from the base class. -/
def BernoulliLik.logpdf (l : BernoulliLik) (x : ℝ) : ℝ := l.toExpFam.logpdf x

/-- BernoulliLik.pdf: inherited from the base class. -/
def BernoulliLik.pdf (l : BernoulliLik) (x : ℝ) : ℝ := l.toExpFam.pdf x

/-- BinomialLik instance state: number of trials, the link, and the stored
number of successes. -/
structure BinomialLik where
  ntrials : ℝ
  link : Link
  nsuccesses : ℝ

def BinomialLik.y (l : BinomialLik) : ℝ := l.nsuccesses / l.ntrials

def BinomialLik.mean (l : BinomialLik) (x : ℝ) : ℝ := l.link.inv x

/-- BinomialLik.latent_variance: raises NotImplementedError when exercised. -/
def BinomialLik.latent_variance (_l : BinomialLik) : Except LimixError ℝ :=
  .error .notImplementedError

def BinomialLik.theta (l : BinomialLik) (x : ℝ) : ℝ :=
  Real.log (l.mean x / (1 - l.mean x))

def BinomialLik.phi (l : BinomialLik) : ℝ := l.ntrials

def BinomialLik.a (l : BinomialLik) : ℝ := 1 / l.phi

def BinomialLik.b (_l : BinomialLik) (theta : ℝ) : ℝ :=
  theta + log1p (Real.exp (-theta))

def BinomialLik.c (l : BinomialLik) : ℝ := logbinom l.phi (l.y * l.phi)

/-- The canonical quantities BinomialLik inherits into the base-class formulas. -/
def BinomialLik.toExpFam (l : BinomialLik) : ExpFamLik :=
  { y := l.y, theta := l.theta, a := l.a, b := l.b, c := l.c }

/-- BinomialLik.logpdf: inherited from the base class. -/
def BinomialLik.logpdf (l : BinomialLik) (x : ℝ) : ℝ := l.toExpFam.logpdf x

/-- BinomialLik.pdf: inherited from the base class. -/
def BinomialLik.pdf (l : BinomialLik) (x : ℝ) : ℝ := l.toExpFam.pdf x

/-- PoissonLik instance state: the link and the stored number of occurrences. -/
structure PoissonLik where
  link : Link
  noccurrences : ℝ

def PoissonLik.y (l : PoissonLik) : ℝ := l.noccurrences

def PoissonLik.mean (l : PoissonLik) (x : ℝ) : ℝ := l.link.inv x

/-- PoissonLik.latent_variance: raises NotImplementedError when exercised. -/
def PoissonLik.latent_variance (_l : PoissonLik) : Except LimixError ℝ :=
  .error .notImplementedError

def PoissonLik.theta (l : PoissonLik) (x : ℝ) : ℝ := Real.log (l.mean x)

def PoissonLik.phi (_l : PoissonLik) : ℝ := 1

def PoissonLik.a (l : PoissonLik) : ℝ := l.phi

def PoissonLik.b (_l : PoissonLik) (theta : ℝ) : ℝ := Real.exp theta

def PoissonLik.c (l : PoissonLik) : ℝ := gammaln (l.noccurrences + 1)

/-- The canonical quantities PoissonLik inherits into the base-class formulas. -/
def PoissonLik.toExpFam (l : PoissonLik) : ExpFamLik :=
  { y := l.y, theta := l.theta, a := l.a, b := l.b, c := l.c }

/-- PoissonLik.logpdf: inherited from the base class. -/
def PoissonLik.logpdf (l : PoissonLik) (x : ℝ) : ℝ := l.toExpFam.logpdf x

/-- PoissonLik.pdf: inherited from the base class. -/
def PoissonLik.pdf (l : PoissonLik) (x : ℝ) : ℝ := l.toExpFam.pdf x

/-! ## Mixed-Model Core state (core.py is not under src/) -/

/-- Modelled from the spec: the file src/limix_inference/lmm/core.py defining
LMMCore is absent from src/; per the spec the Core holds the current delta,
scale, the fitted mean vector m, and a cached-validity flag valid_update. -/
structure LMMCore where
  delta : ℝ
  scale : ℝ
  m : List ℝ
  valid_update : Bool

/-- Modelled from the spec: the file src/limix_inference/lmm/fastlmm/core.py
defining FastLMMCore is absent from src/; per the spec the Core holds the
current delta, scale, the fitted mean vector m, a cached-validity flag
valid_update, and whether the scale is held fixed (fix_scale/unfix_scale). -/
structure FastLMMCore where
  delta : ℝ
  scale : ℝ
  m : List ℝ
  valid_update : Bool
  scale_fixed : Bool

/-- Modelled from the spec: FastLMMCore.fix_scale holds the scale at its
last-set value instead of estimating it analytically. -/
def FastLMMCore.fix_scale (c : FastLMMCore) : FastLMMCore :=
  { c with scale_fixed := true }

/-- Modelled from the spec: FastLMMCore.unfix_scale re-enables analytic
estimation of the scale. -/
def FastLMMCore.unfix_scale (c : FastLMMCore) : FastLMMCore :=
  { c with scale_fixed := false }

/-- Python dict assignment d[k] = v over an association list: replace the
binding of k if present, otherwise append it. -/
def dictSet (d : List (String × Bool)) (k : String) (v : Bool) : List (String × Bool) :=
  match d with
  | [] => [(k, v)]
  | (k0, v0) :: rest => if k0 = k then (k, v) :: rest else (k0, v0) :: dictSet rest k v

/-- Python dict lookup d[k] over an association list. -/
def dictGet (d : List (String × Bool)) (k : String) : Option Bool :=
  match d with
  | [] => none
  | (k0, v0) :: rest => if k0 = k then some v0 else dictGet rest k

/-! ## Optimization wrapper LMM (src/limix_inference/lmm/lmm.py)

LMM inherits LMMCore and optimix.Function(logistic=Scalar(0.0)); the
optimix base class holds the free scalar value and whether it is fixed. -/

/-- LMM instance state: the inherited Core state, the optimix 'logistic'
scalar (value and fixed flag), the _fix dict initialised to
dict(beta=False, scale=False), and the stored _scale. -/
structure LMMState where
  core : LMMCore
  logisticValue : ℝ
  logisticFixed : Bool
  _fix : List (String × Bool)
  _scale : ℝ

/-- LMM.fix(var_name): for 'delta', fix the optimix 'logistic' scalar;
otherwise set self._fix[var_name] = True.  The ValueError branch and the
valid_update invalidation are commented out in the source. -/
def LMM.fix (var_name : String) (s : LMMState) : Except LimixError LMMState :=
  if var_name = "delta" then
    .ok { s with logisticFixed := true }
  else
    .ok { s with _fix := dictSet s._fix var_name true }

/-- LMM.unfix(var_name): for 'delta', unfix the optimix 'logistic' scalar;
otherwise set self._fix[var_name] = False.  The ValueError branch and the
valid_update invalidation are commented out in the source. -/
def LMM.unfix (var_name : String) (s : LMMState) : Except LimixError LMMState :=
  if var_name = "delta" then
    .ok { s with logisticFixed := false }
  else
    .ok { s with _fix := dictSet s._fix var_name false }

/-- LMM.scale property: self._scale when self._fix['scale'] is set, else the
Core's analytically estimated scale (modelled from the spec as the Core's
scale field, core.py being absent). -/
def LMM.scale (s : LMMState) : ℝ :=
  if (dictGet s._fix "scale").getD false then s._scale else s.core.scale

/-- Modelled from the spec: LMMCore's delta property reads the Core's current
delta (core.py is absent from src/). -/
def LMM.delta (s : LMMState) : ℝ := s.core.delta

/-- Modelled from the spec: the LMMCore delta setter assigns the given delta
into the Core (core.py is absent from src/). -/
def LMM.setDelta (s : LMMState) (v : ℝ) : LMMState :=
  { s with core := { s.core with delta := v } }

/-- LMM._get_delta: clip the 'logistic' scalar to [-20, 20], pass it through
the logistic function, and clip the result to [1e-5, 1 - 1e-5]. -/
def LMM._get_delta (s : LMMState) : ℝ :=
  let v := clip s.logisticValue (-20) 20
  let x := 1 / (1 + Real.exp (-v))
  clip x (1 / 100000) (1 - 1 / 100000)

/-- LMM.fixed_effects_variance: the variance of the fitted mean m. -/
def LMM.fixed_effects_variance (s : LMMState) : ℝ := npvar s.core.m

/-- LMM.genetic_variance: scale * (1 - delta). -/
def LMM.genetic_variance (s : LMMState) : ℝ := LMM.scale s * (1 - LMM.delta s)

/-- LMM.environmental_variance: scale * delta. -/
def LMM.environmental_variance (s : LMMState) : ℝ := LMM.scale s * LMM.delta s

/-- LMM.heritability: genetic variance over the sum of the three variance
components. -/
def LMM.heritability (s : LMMState) : ℝ :=
  LMM.genetic_variance s /
    (LMM.fixed_effects_variance s + LMM.genetic_variance s +
      LMM.environmental_variance s)

/-- LMM.lml(): assign _get_delta() into the Core, then return LMMCore.lml(self).
The Core's lml computation lives in the absent core.py, so it is taken as an
uninterpreted function lmlCore of the Core state. -/
def LMM.lml (lmlCore : LMMCore → ℝ) (s : LMMState) : LMMState × ℝ :=
  let s1 := LMM.setDelta s (LMM._get_delta s)
  (s1, lmlCore s1.core)

/-- LMM.value(): assign _get_delta() into the Core, then return self.lml(). -/
def LMM.value (lmlCore : LMMCore → ℝ) (s : LMMState) : LMMState × ℝ :=
  let s1 := LMM.setDelta s (LMM._get_delta s)
  LMM.lml lmlCore s1

/-! ## Optimization wrapper FastLMM (src/limix_inference/lmm/fastlmm/fastlmm.py) -/

/-- FastLMM instance state: the optimix 'logistic' scalar (value and fixed
flag) and the owned FastLMMCore instance self._flmmc. -/
structure FastLMMState where
  logisticValue : ℝ
  logisticFixed : Bool
  _flmmc : FastLMMCore

/-- FastLMM.fix(var_name): 'delta' fixes the optimix 'logistic' scalar,
'scale' calls self._flmmc.fix_scale(), anything else raises ValueError;
on success self._flmmc.valid_update is set to False. -/
def FastLMM.fix (var_name : String) (s : FastLMMState) : Except LimixError FastLMMState :=
  if var_name = "delta" then
    let s1 := { s with logisticFixed := true }
    .ok { s1 with _flmmc := { s1._flmmc with valid_update := false } }
  else if var_name = "scale" then
    let s1 := { s with _flmmc := s._flmmc.fix_scale }
    .ok { s1 with _flmmc := { s1._flmmc with valid_update := false } }
  else
    .error .valueError

/-- FastLMM.unfix(var_name): 'delta' unfixes the optimix 'logistic' scalar,
'scale' calls self._flmmc.unfix_scale(), anything else raises ValueError;
on success self._flmmc.valid_update is set to False. -/
def FastLMM.unfix (var_name : String) (s : FastLMMState) : Except LimixError FastLMMState :=
  if var_name = "delta" then
    let s1 := { s with logisticFixed := false }
    .ok { s1 with _flmmc := { s1._flmmc with valid_update := false } }
  else if var_name = "scale" then
    let s1 := { s with _flmmc := s._flmmc.unfix_scale }
    .ok { s1 with _flmmc := { s1._flmmc with valid_update := false } }
  else
    .error .valueError

/-- FastLMM._delta: clip the 'logistic' scalar to [-20, 20], pass it through
the logistic function, and clip the result to [1e-5, 1 - 1e-5]. -/
def FastLMM._delta (s : FastLMMState) : ℝ :=
  let v := clip s.logisticValue (-20) 20
  let x := 1 / (1 + Real.exp (-v))
  clip x (1 / 100000) (1 - 1 / 100000)

/-- FastLMM.fixed_effects_variance: the variance of the Core's fitted mean m. -/
def FastLMM.fixed_effects_variance (s : FastLMMState) : ℝ := npvar s._flmmc.m

/-- FastLMM.genetic_variance: the Core's scale * (1 - the Core's delta). -/
def FastLMM.genetic_variance (s : FastLMMState) : ℝ :=
  s._flmmc.scale * (1 - s._flmmc.delta)

/-- FastLMM.environmental_variance: the Core's scale * the Core's delta. -/
def FastLMM.environmental_variance (s : FastLMMState) : ℝ :=
  s._flmmc.scale * s._flmmc.delta

/-- FastLMM.heritability: genetic variance over the sum of the three variance
components. -/
def FastLMM.heritability (s : FastLMMState) : ℝ :=
  FastLMM.genetic_variance s /
    (FastLMM.fixed_effects_variance s + FastLMM.genetic_variance s +
      FastLMM.environmental_variance s)

/-- FastLMM.value(): assign self._delta() into self._flmmc.delta, then return
self._flmmc.lml().  The Core's lml computation lives in the absent core.py,
so it is taken as an uninterpreted function lmlCore of the Core state. -/
def FastLMM.value (lmlCore : FastLMMCore → ℝ) (s : FastLMMState) : FastLMMState × ℝ :=
  let s1 := { s with _flmmc := { s._flmmc with delta := FastLMM._delta s } }
  (s1, lmlCore s1._flmmc)

/-! ## Gaussian-process sampler (src/limix_inference/random/gp.py) -/

/-- numpy_sugar.linalg.sum2diag(K, v): add v to every diagonal entry of K. -/
def sum2diag (M : List (List ℝ)) (v : ℝ) : List (List ℝ) :=
  M.mapIdx fun i row => row.mapIdx fun j x => if i = j then x + v else x

/-- GPSampler instance state: the mean and covariance collaborators, each
modelled by the value its feed('sample').value() returns. -/
structure GPSampler where
  mean : List ℝ
  cov : List (List ℝ)

/-- GPSampler.sample(random_state): read the mean vector and the covariance
matrix, copy the covariance, add epsilon.small to the diagonal of the copy
(the in-place sum2diag acts on the private copy, embedded here as the pure
construction of a new matrix), and draw from the multivariate normal.  The
state of the sampler and its collaborators is returned unchanged.  The
external draw (numpy_sugar.random.multivariate_normal) is the uninterpreted
function mvn; epsilon.small is the library constant eps; a None random_state
is replaced by a fresh default-seeded source freshSource. -/
def GPSampler.sample (mvn : List ℝ → List (List ℝ) → ℕ → List ℝ) (eps : ℝ)
    (freshSource : ℕ) (g : GPSampler) (random_state : Option ℕ) :
    GPSampler × List ℝ :=
  let rs := match random_state with
    | none => freshSource
    | some r => r
  let m := g.mean
  let K := sum2diag g.cov eps
  (g, mvn m K rs)

/-! ## Concrete instances used to exercise the embedded operations -/

/-- An identity link with zero latent variance, used as a concrete collaborator. -/
def linkId : Link := { inv := fun x => x, latent_variance := 0 }

def lmmStateA : LMMState :=
  { core := { delta := 1 / 2, scale := 1, m := [], valid_update := true },
    logisticValue := 0, logisticFixed := false,
    _fix := [("beta", false), ("scale", false)], _scale := 1 }

def fastStateA : FastLMMState :=
  { logisticValue := 0, logisticFixed := false,
    _flmmc := { delta := 1 / 2, scale := 1, m := [], valid_update := true,
                scale_fixed := false } }

def lmmStateB : LMMState :=
  { core := { delta := 1 / 2, scale := 1, m := [], valid_update := true },
    logisticValue := 0, logisticFixed := false,
    _fix := [("beta", false), ("scale", false)], _scale := 1 }

def fastStateB : FastLMMState :=
  { logisticValue := 0, logisticFixed := false,
    _flmmc := { delta := 1 / 2, scale := 1, m := [], valid_update := true,
                scale_fixed := false } }

def lmmStateC : LMMState :=
  { core := { delta := 1 / 2, scale := 1, m := [], valid_update := true },
    logisticValue := 0, logisticFixed := false,
    _fix := [("beta", false), ("scale", false)], _scale := 1 }

def lmmStateD : LMMState :=
  { core := { delta := 1 / 2, scale := 1, m := [0], valid_update := true },
    logisticValue := 0, logisticFixed := false,
    _fix := [("beta", false), ("scale", false)], _scale := 1 }

def fastStateD : FastLMMState :=
  { logisticValue := 0, logisticFixed := false,
    _flmmc := { delta := 1 / 2, scale := 1, m := [0], valid_update := true,
                scale_fixed := false } }

/-! ## Helper lemmas -/

theorem clip_bounds (x lo hi : ℝ) (h : lo ≤ hi) :
    lo ≤ clip x lo hi ∧ clip x lo hi ≤ hi :=
  ⟨le_min (le_max_right x lo) h, min_le_right _ _⟩

theorem npvar_nonneg (xs : List ℝ) : 0 ≤ npvar xs := by
  unfold npvar
  refine div_nonneg (List.sum_nonneg ?_) (Nat.cast_nonneg _)
  intro y hy
  obtain ⟨z, _, rfl⟩ := List.mem_map.mp hy
  positivity

theorem unit_ratio (f g e : ℝ) (hf : 0 ≤ f) (hg : 0 ≤ g) (he : 0 ≤ e) :
    0 ≤ g / (f + g + e) ∧ g / (f + g + e) ≤ 1 := by
  by_cases h : f + g + e = 0
  · have hg0 : g = 0 := by linarith
    rw [hg0, zero_div]
    exact ⟨le_refl 0, by norm_num⟩
  · have hpos : 0 < f + g + e := lt_of_le_of_ne (by linarith) (Ne.symm h)
    exact ⟨div_nonneg hg hpos.le, (div_le_one hpos).mpr (by linarith)⟩

theorem add_log_one_add_exp_neg (t : ℝ) :
    t + Real.log (1 + Real.exp (-t)) = Real.log (1 + Real.exp t) := by
  have h1 : (0 : ℝ) < 1 + Real.exp (-t) := by positivity
  have h2 : Real.exp t ≠ 0 := Real.exp_ne_zero t
  have key : Real.exp t * (1 + Real.exp (-t)) = 1 + Real.exp t := by
    have hmul : Real.exp t * Real.exp (-t) = 1 := by
      rw [← Real.exp_add]
      simp
    calc Real.exp t * (1 + Real.exp (-t))
        = Real.exp t * 1 + Real.exp t * Real.exp (-t) := by ring
      _ = Real.exp t + 1 := by rw [mul_one, hmul]
      _ = 1 + Real.exp t := add_comm _ _
  calc t + Real.log (1 + Real.exp (-t))
      = Real.log (Real.exp t) + Real.log (1 + Real.exp (-t)) := by rw [Real.log_exp]
    _ = Real.log (Real.exp t * (1 + Real.exp (-t))) :=
        (Real.log_mul h2 (ne_of_gt h1)).symm
    _ = Real.log (1 + Real.exp t) := by rw [key]

/-! ## Claim theorems -/

/-- C1: for every real value of the free 'logistic' parameter, LMM._get_delta
and FastLMM._delta return clip(1/(1+exp(-clip(v, -20, 20))), 1e-5, 1-1e-5),
hence always lie in [1e-5, 1-1e-5]; and value() assigns exactly this delta
into the Mixed-Model Core and returns the Core's lml() at that state. -/
theorem c1_delta_transform_and_value :
    (∀ s : LMMState,
        LMM._get_delta s =
          clip (1 / (1 + Real.exp (-(clip s.logisticValue (-20) 20))))
            (1 / 100000) (1 - 1 / 100000) ∧
        1 / 100000 ≤ LMM._get_delta s ∧ LMM._get_delta s ≤ 1 - 1 / 100000) ∧
    (∀ s : FastLMMState,
        FastLMM._delta s =
          clip (1 / (1 + Real.exp (-(clip s.logisticValue (-20) 20))))
            (1 / 100000) (1 - 1 / 100000) ∧
        1 / 100000 ≤ FastLMM._delta s ∧ FastLMM._delta s ≤ 1 - 1 / 100000) ∧
    (∀ (lmlCore : LMMCore → ℝ) (s : LMMState),
        (LMM.value lmlCore s).1.core.delta = LMM._get_delta s ∧
        (LMM.value lmlCore s).2 = lmlCore (LMM.value lmlCore s).1.core) ∧
    (∀ (lmlCore : FastLMMCore → ℝ) (s : FastLMMState),
        (FastLMM.value lmlCore s).1._flmmc.delta = FastLMM._delta s ∧
        (FastLMM.value lmlCore s).2 = lmlCore (FastLMM.value lmlCore s).1._flmmc) := by
  have hb : (1 : ℝ) / 100000 ≤ 1 - 1 / 100000 := by norm_num
  refine ⟨fun s => ⟨rfl, ?_⟩, fun s => ⟨rfl, ?_⟩,
    fun lmlCore s => ⟨rfl, rfl⟩, fun lmlCore s => ⟨rfl, rfl⟩⟩
  · exact clip_bounds _ _ _ hb
  · exact clip_bounds _ _ _ hb

/-- C2 counterexample: on LMM, fix('scale') does not leave the Core's
valid_update flag False — starting from a Core with valid_update = True, the
operation succeeds and the flag is still True (the invalidation line is
commented out in lmm.py). -/
theorem c2_counterexample :
    lmmStateA.core.valid_update = true ∧
    ((LMM.fix "scale" lmmStateA).toOption.map (fun t => t.core.valid_update)) =
      some true :=
  ⟨rfl, rfl⟩

/-- C2 (amended): on FastLMM, every fix(name)/unfix(name) with name 'delta' or
'scale' leaves the Core's valid_update flag False; on LMM, fix/unfix never
modify the Core's valid_update flag, which retains its prior value (the
invalidation line is commented out in lmm.py). -/
theorem c2_fix_unfix_invalidation :
    (∀ (s : FastLMMState) (name : String), name = "delta" ∨ name = "scale" →
        ((FastLMM.fix name s).toOption.map (fun t => t._flmmc.valid_update) =
            some false ∧
         (FastLMM.unfix name s).toOption.map (fun t => t._flmmc.valid_update) =
            some false)) ∧
    (∀ (s : LMMState) (name : String),
        ((LMM.fix name s).toOption.map (fun t => t.core.valid_update) =
            some s.core.valid_update ∧
         (LMM.unfix name s).toOption.map (fun t => t.core.valid_update) =
            some s.core.valid_update)) := by
  constructor
  · rintro s name (rfl | rfl) <;> exact ⟨rfl, rfl⟩
  · intro s name
    constructor <;>
      · by_cases h : name = "delta" <;>
          simp [LMM.fix, LMM.unfix, h, Except.toOption]

/-- C2 witness: the amended statement applied to concrete states. -/
theorem c2_witness :
    ((FastLMM.fix "delta" fastStateA).toOption.map
        (fun t => t._flmmc.valid_update) = some false) ∧
    ((LMM.unfix "scale" lmmStateA).toOption.map (fun t => t.core.valid_update) =
        some lmmStateA.core.valid_update) :=
  ⟨(c2_fix_unfix_invalidation.1 fastStateA "delta" (Or.inl rfl)).1,
   (c2_fix_unfix_invalidation.2 lmmStateA "scale").2⟩

/-- C3 counterexample: on LMM, fix('typo') with an unrecognized name raises
nothing and silently records the name in the _fix dict — starting from a
state whose dict lacks the key, the call succeeds and the dict now maps
'typo' to True (the ValueError branch is commented out in lmm.py). -/
theorem c3_counterexample :
    dictGet lmmStateB._fix "typo" = none ∧
    ((LMM.fix "typo" lmmStateB).toOption.map (fun t => dictGet t._fix "typo")) =
      some (some true) :=
  ⟨rfl, rfl⟩

/-- C3 (amended): on FastLMM, fix/unfix with any name other than 'delta' and
'scale' raise ValueError (leaving the state unchanged); on LMM, fix (unfix)
with any name other than 'delta' raises nothing and records name ↦ True
(False) in the _fix dict. -/
theorem c3_invalid_parameter_name :
    (∀ (s : FastLMMState) (name : String), name ≠ "delta" → name ≠ "scale" →
        (FastLMM.fix name s = .error .valueError ∧
         FastLMM.unfix name s = .error .valueError)) ∧
    (∀ (s : LMMState) (name : String), name ≠ "delta" →
        (LMM.fix name s = .ok { s with _fix := dictSet s._fix name true } ∧
         LMM.unfix name s = .ok { s with _fix := dictSet s._fix name false })) := by
  constructor
  · intro s name h1 h2
    exact ⟨by simp [FastLMM.fix, h1, h2], by simp [FastLMM.unfix, h1, h2]⟩
  · intro s name h1
    exact ⟨by simp [LMM.fix, h1], by simp [LMM.unfix, h1]⟩

/-- C3 witness: the amended statement applied to concrete states and the
unrecognized name 'typo'. -/
theorem c3_witness :
    FastLMM.fix "typo" fastStateB = .error .valueError ∧
    LMM.fix "typo" lmmStateC =
      .ok { lmmStateC with _fix := dictSet lmmStateC._fix "typo" true } :=
  ⟨(c3_invalid_parameter_name.1 fastStateB "typo" (by decide) (by decide)).1,
   (c3_invalid_parameter_name.2 lmmStateC "typo" (by decide)).1⟩

/-- C4: every likelihood variant computes logpdf(x) as the single shared
base-class formula (y * theta(x) - b(theta(x))) / a() + c() and
pdf(x) = exp(logpdf(x)); in particular, Bernoulli's logpdf equals the
textbook y * log(p/(1-p)) - log(1 + exp(log(p/(1-p)))) with p = link.inv(x). -/
theorem c4_shared_expfam_logpdf :
    (∀ (L : ExpFamLik) (x : ℝ),
        L.logpdf x = (L.y * L.theta x - L.b (L.theta x)) / L.a + L.c ∧
        L.pdf x = Real.exp (L.logpdf x)) ∧
    (∀ (l : DeltaLik) (x : ℝ),
        l.logpdf x = l.toExpFam.logpdf x ∧ l.pdf x = l.toExpFam.pdf x) ∧
    (∀ (l : BernoulliLik) (x : ℝ),
        l.logpdf x = l.toExpFam.logpdf x ∧ l.pdf x = l.toExpFam.pdf x) ∧
    (∀ (l : BinomialLik) (x : ℝ),
        l.logpdf x = l.toExpFam.logpdf x ∧ l.pdf x = l.toExpFam.pdf x) ∧
    (∀ (l : PoissonLik) (x : ℝ),
        l.logpdf x = l.toExpFam.logpdf x ∧ l.pdf x = l.toExpFam.pdf x) ∧
    (∀ (l : BernoulliLik) (x : ℝ),
        l.logpdf x =
          l.y * Real.log (l.mean x / (1 - l.mean x)) -
            Real.log (1 + Real.exp (Real.log (l.mean x / (1 - l.mean x))))) := by
  refine ⟨fun L x => ⟨rfl, rfl⟩, fun l x => ⟨rfl, rfl⟩, fun l x => ⟨rfl, rfl⟩,
    fun l x => ⟨rfl, rfl⟩, fun l x => ⟨rfl, rfl⟩, fun l x => ?_⟩
  have h := add_log_one_add_exp_neg (Real.log (l.mean x / (1 - l.mean x)))
  simp only [BernoulliLik.logpdf, ExpFamLik.logpdf, BernoulliLik.toExpFam,
    BernoulliLik.theta, BernoulliLik.a, BernoulliLik.b, BernoulliLik.c, log1p,
    div_one, add_zero]
  linarith

/-- C5: for every wrapper state (LMM and FastLMM) with scale at least 0 and
delta in [1e-5, 1-1e-5], genetic_variance = scale * (1 - delta),
environmental_variance = scale * delta, heritability = genetic_variance over
the sum of fixed-effects, genetic and environmental variances with
fixed_effects_variance the variance of the fitted mean m, and heritability
lies in [0, 1]. -/
theorem c5_variance_components :
    (∀ s : LMMState, 0 ≤ LMM.scale s →
        1 / 100000 ≤ LMM.delta s → LMM.delta s ≤ 1 - 1 / 100000 →
        (LMM.genetic_variance s = LMM.scale s * (1 - LMM.delta s) ∧
         LMM.environmental_variance s = LMM.scale s * LMM.delta s ∧
         LMM.fixed_effects_variance s = npvar s.core.m ∧
         LMM.heritability s =
           LMM.genetic_variance s /
             (LMM.fixed_effects_variance s + LMM.genetic_variance s +
               LMM.environmental_variance s) ∧
         0 ≤ LMM.heritability s ∧ LMM.heritability s ≤ 1)) ∧
    (∀ s : FastLMMState, 0 ≤ s._flmmc.scale →
        1 / 100000 ≤ s._flmmc.delta → s._flmmc.delta ≤ 1 - 1 / 100000 →
        (FastLMM.genetic_variance s = s._flmmc.scale * (1 - s._flmmc.delta) ∧
         FastLMM.environmental_variance s = s._flmmc.scale * s._flmmc.delta ∧
         FastLMM.fixed_effects_variance s = npvar s._flmmc.m ∧
         FastLMM.heritability s =
           FastLMM.genetic_variance s /
             (FastLMM.fixed_effects_variance s + FastLMM.genetic_variance s +
               FastLMM.environmental_variance s) ∧
         0 ≤ FastLMM.heritability s ∧ FastLMM.heritability s ≤ 1)) := by
  constructor
  · intro s hscale hlo hhi
    have hg : 0 ≤ LMM.scale s * (1 - LMM.delta s) :=
      mul_nonneg hscale (by linarith)
    have he : 0 ≤ LMM.scale s * LMM.delta s :=
      mul_nonneg hscale (by linarith)
    have hf : 0 ≤ npvar s.core.m := npvar_nonneg _
    have hu := unit_ratio (npvar s.core.m) (LMM.scale s * (1 - LMM.delta s))
      (LMM.scale s * LMM.delta s) hf hg he
    exact ⟨rfl, rfl, rfl, rfl, hu.1, hu.2⟩
  · intro s hscale hlo hhi
    have hg : 0 ≤ s._flmmc.scale * (1 - s._flmmc.delta) :=
      mul_nonneg hscale (by linarith)
    have he : 0 ≤ s._flmmc.scale * s._flmmc.delta :=
      mul_nonneg hscale (by linarith)
    have hf : 0 ≤ npvar s._flmmc.m := npvar_nonneg _
    have hu := unit_ratio (npvar s._flmmc.m)
      (s._flmmc.scale * (1 - s._flmmc.delta)) (s._flmmc.scale * s._flmmc.delta)
      hf hg he
    exact ⟨rfl, rfl, rfl, rfl, hu.1, hu.2⟩

/-- C5 witness: the heritability bounds at concrete wrapper states with
scale = 1 and delta = 1/2. -/
theorem c5_witness :
    (0 ≤ LMM.heritability lmmStateD ∧ LMM.heritability lmmStateD ≤ 1) ∧
    (0 ≤ FastLMM.heritability fastStateD ∧ FastLMM.heritability fastStateD ≤ 1) := by
  have h1 := c5_variance_components.1 lmmStateD
    (by norm_num [LMM.scale, lmmStateD, dictGet])
    (by norm_num [LMM.delta, lmmStateD])
    (by norm_num [LMM.delta, lmmStateD])
  have h2 := c5_variance_components.2 fastStateD
    (by norm_num [fastStateD]) (by norm_num [fastStateD])
    (by norm_num [fastStateD])
  exact ⟨⟨h1.2.2.2.2.1, h1.2.2.2.2.2⟩, ⟨h2.2.2.2.2.1, h2.2.2.2.2.2⟩⟩

/-- C6: for the Poisson likelihood with observed count k, c() = log(k!),
b(theta) = exp(theta), a() = 1, and for k = 0 the log-density is
logpdf(x) = -exp(theta(x)). -/
theorem c6_poisson_quantities :
    ∀ (link : Link) (k : ℕ) (x th : ℝ),
      (PoissonLik.mk link (k : ℝ)).c = Real.log (Nat.factorial k) ∧
      (PoissonLik.mk link (k : ℝ)).b th = Real.exp th ∧
      (PoissonLik.mk link (k : ℝ)).a = 1 ∧
      (PoissonLik.mk link ((0 : ℕ) : ℝ)).logpdf x =
        -Real.exp ((PoissonLik.mk link ((0 : ℕ) : ℝ)).theta x) := by
  intro link k x th
  refine ⟨?_, rfl, rfl, ?_⟩
  · show gammaln ((k : ℝ) + 1) = Real.log (Nat.factorial k)
    rw [gammaln, Real.Gamma_nat_eq_factorial]
  · simp [PoissonLik.logpdf, ExpFamLik.logpdf, PoissonLik.toExpFam,
      PoissonLik.y, PoissonLik.a, PoissonLik.b, PoissonLik.c, PoissonLik.phi,
      gammaln, Real.Gamma_one]

/-- C7: for a Binomial likelihood with ntrials n > 0 and nsuccesses k with
k at most n, phi = n, a() = 1/n, y = k/n, and c() = logbinom(phi, y * phi)
equals the log-binomial-coefficient log C(n, k); the consistency of k with n
is a caller precondition, not validated by the code. -/
theorem c7_binomial_quantities :
    ∀ (link : Link) (n k : ℕ), 0 < n → k ≤ n →
      ((BinomialLik.mk (n : ℝ) link (k : ℝ)).phi = (n : ℝ) ∧
       (BinomialLik.mk (n : ℝ) link (k : ℝ)).a = 1 / (n : ℝ) ∧
       (BinomialLik.mk (n : ℝ) link (k : ℝ)).y = (k : ℝ) / (n : ℝ) ∧
       (BinomialLik.mk (n : ℝ) link (k : ℝ)).c =
         logbinom (BinomialLik.mk (n : ℝ) link (k : ℝ)).phi
           ((BinomialLik.mk (n : ℝ) link (k : ℝ)).y *
             (BinomialLik.mk (n : ℝ) link (k : ℝ)).phi) ∧
       (BinomialLik.mk (n : ℝ) link (k : ℝ)).c = Real.log (n.choose k)) := by
  intro link n k hn hk
  refine ⟨rfl, rfl, rfl, rfl, ?_⟩
  have hn0 : (n : ℝ) ≠ 0 := Nat.cast_ne_zero.mpr hn.ne'
  have hy : (k : ℝ) / (n : ℝ) * (n : ℝ) = (k : ℝ) := div_mul_cancel₀ _ hn0
  have hsub : (n : ℝ) - (k : ℝ) = ((n - k : ℕ) : ℝ) := (Nat.cast_sub hk).symm
  have hfac : ((n.choose k : ℕ) : ℝ) * ((Nat.factorial k : ℕ) : ℝ) * ((Nat.factorial (n - k) : ℕ) : ℝ) =
      ((Nat.factorial n : ℕ) : ℝ) := by
    exact_mod_cast congrArg (Nat.cast : ℕ → ℝ)
      (Nat.choose_mul_factorial_mul_factorial hk)
  have hchoose0 : ((n.choose k : ℕ) : ℝ) ≠ 0 :=
    Nat.cast_ne_zero.mpr (Nat.choose_pos hk).ne'
  have hkf0 : ((Nat.factorial k : ℕ) : ℝ) ≠ 0 := Nat.cast_ne_zero.mpr (Nat.factorial_pos k).ne'
  have hnkf0 : ((Nat.factorial (n - k) : ℕ) : ℝ) ≠ 0 :=
    Nat.cast_ne_zero.mpr (Nat.factorial_pos (n - k)).ne'
  have hlog : Real.log ((Nat.factorial n : ℕ) : ℝ) =
      Real.log ((n.choose k : ℕ) : ℝ) + Real.log ((Nat.factorial k : ℕ) : ℝ) +
        Real.log ((Nat.factorial (n - k) : ℕ) : ℝ) := by
    rw [← hfac, Real.log_mul (mul_ne_zero hchoose0 hkf0) hnkf0,
      Real.log_mul hchoose0 hkf0]
  show logbinom (n : ℝ) ((k : ℝ) / (n : ℝ) * (n : ℝ)) = Real.log (n.choose k)
  rw [hy, logbinom, hsub, gammaln, gammaln, gammaln,
    Real.Gamma_nat_eq_factorial, Real.Gamma_nat_eq_factorial,
    Real.Gamma_nat_eq_factorial]
  push_cast at hlog
  linarith

/-- C7 witness: the Binomial quantities at n = 2 trials and k = 1 successes. -/
theorem c7_witness :
    (BinomialLik.mk ((2 : ℕ) : ℝ) linkId ((1 : ℕ) : ℝ)).c =
      Real.log ((2 : ℕ).choose 1) :=
  (c7_binomial_quantities linkId 2 1 (by norm_num) (by norm_num)).2.2.2.2

/-- C8: reading/exercising latent_variance raises NotImplementedError for the
Delta, Binomial and Poisson variants, while Bernoulli delegates to the link's
latent_variance without raising. -/
theorem c8_latent_variance_errors :
    ∀ (d : DeltaLik) (bi : BinomialLik) (po : PoissonLik) (be : BernoulliLik),
      d.latent_variance = .error .notImplementedError ∧
      bi.latent_variance = .error .notImplementedError ∧
      po.latent_variance = .error .notImplementedError ∧
      be.latent_variance = .ok be.link.latent_variance :=
  fun _d _bi _po _be => ⟨rfl, rfl, rfl, rfl⟩

/-- C9: for the Delta likelihood with any stored outcome y, theta(x) = 0,
a() = 1, b(0) = 0, c() = 0, hence logpdf(x) = 0 and pdf(x) = 1 regardless of
whether the outcome matches x; and sample(x, random_state) returns exactly x
for every random source. -/
theorem c9_delta_likelihood :
    ∀ (l : DeltaLik) (x : ℝ) (rs : Option ℕ),
      l.theta x = 0 ∧ l.a = 1 ∧ l.b 0 = 0 ∧ l.c = 0 ∧
      l.logpdf x = 0 ∧ l.pdf x = 1 ∧ l.sample x rs = x := by
  intro l x rs
  refine ⟨rfl, rfl, rfl, rfl, ?_, ?_, rfl⟩
  · simp [DeltaLik.logpdf, ExpFamLik.logpdf, DeltaLik.toExpFam, DeltaLik.theta,
      DeltaLik.a, DeltaLik.b, DeltaLik.c, DeltaLik.y]
  · have h : l.logpdf x = 0 := by
      simp [DeltaLik.logpdf, ExpFamLik.logpdf, DeltaLik.toExpFam,
        DeltaLik.theta, DeltaLik.a, DeltaLik.b, DeltaLik.c, DeltaLik.y]
    show Real.exp (l.toExpFam.logpdf x) = 1
    rw [show l.toExpFam.logpdf x = l.logpdf x from rfl, h, Real.exp_zero]

/-- C10: GPSampler.sample regularizes only a private copy of the covariance —
it draws from the covariance matrix with epsilon added to its diagonal while
the sampler's own covariance matrix and mean vector are returned unchanged by
every call. -/
theorem c10_gp_sampler_frame :
    ∀ (mvn : List ℝ → List (List ℝ) → ℕ → List ℝ) (eps : ℝ) (freshSource : ℕ)
      (g : GPSampler) (rs : Option ℕ),
      (GPSampler.sample mvn eps freshSource g rs).1 = g ∧
      (GPSampler.sample mvn eps freshSource g rs).1.mean = g.mean ∧
      (GPSampler.sample mvn eps freshSource g rs).1.cov = g.cov ∧
      (GPSampler.sample mvn eps freshSource g rs).2 =
        mvn g.mean (sum2diag g.cov eps)
          (match rs with | none => freshSource | some r => r) :=
  fun _mvn _eps _freshSource _g _rs => ⟨rfl, rfl, rfl, rfl⟩

end LimixInference
